import Mathlib

set_option maxRecDepth 10000

/-
Verification of the precomputed microfacet-reflectance interpolation engine
(class ReflectionAlbedo, file ReflectionAlbedo.h). The C++ code is embedded
shallowly: float arithmetic is modelled by exact rational arithmetic, size_t
index arithmetic by natural numbers, and a C++ array read tab[i] by
List.getD tab i 0 (so an out-of-bounds read is visible as an index at or
beyond the list length). Every constant table entry in the source is a
float literal with exactly five decimal digits, so each table is stored
here as the list of its entries scaled by 100000 (an exact integer
encoding of the decimal literals) and the rational-valued table is the
image of that list under q5, where q5 n = n / 100000.
-/

namespace ReflectionAlbedo

/-- The microfacet distribution selector (ispc::MicrofacetDistribution).
Modelled from the spec: the enum itself is declared in generated ispc stubs
that are not among the sources here; the spec describes it as an enumerated
value with two supported members, Beckmann and GGX, and possibly further
unsupported values, which the constructor other stands for. -/
inductive MicrofacetDistribution where
  | beckmann
  | ggx
  | other (n : Nat)
deriving DecidableEq

/-- Linear interpolation between a and b with weight t.
Modelled from the spec: scene_rdl2::math::lerp is a library function whose
code is not among the sources here; the spec (section 4.1 step 4) describes
it as linear interpolation between the two entries using the weight. -/
def lerp (a b t : Rat) : Rat := a + t * (b - a)

/-- Number of samples per axis of the tables (COMP = 33). -/
def COMP : Nat := 33

/-- The rational value of a table entry stored as its five-decimal-digit
numerator: q5 n encodes the source float literal n / 100000. -/
def q5 (n : Nat) : Rat := (n : Rat) / 100000

/-- Beckmann directional albedo table entries, scaled by 100000; COMP*COMP row-major entries, 33 per source row. -/
def mBeckmannEData : List Nat := [
  0, 100000, 100000, 100000, 100000, 99780, 100000, 100000, 100000, 99920, 99644, 100000, 100000, 100000, 100000, 100000, 100000, 100000, 99789, 100000, 99721, 99592, 100000, 100000, 100000, 100000, 100000, 100000, 100000, 100000, 100000, 100000, 100000,
  0, 100000, 100000, 100000, 100000, 100000, 100000, 100000, 100000, 100000, 100000, 100000, 100000, 100000, 100000, 100000, 100000, 100000, 100000, 100000, 100000, 100000, 100000, 100000, 100000, 100000, 100000, 100000, 100000, 100000, 100000, 100000, 100000,
  0, 100000, 100000, 100000, 100000, 100000, 100000, 100000, 100000, 100000, 100000, 100000, 100000, 100000, 100000, 100000, 100000, 100000, 100000, 100000, 100000, 100000, 100000, 100000, 100000, 100000, 100000, 100000, 100000, 100000, 100000, 100000, 100000,
  0, 100000, 100000, 100000, 100000, 100000, 100000, 100000, 100000, 100000, 100000, 100000, 100000, 100000, 100000, 100000, 100000, 100000, 100000, 100000, 100000, 100000, 100000, 100000, 100000, 100000, 100000, 100000, 100000, 100000, 100000, 100000, 100000,
  0, 95384, 100000, 100000, 100000, 100000, 100000, 100000, 100000, 100000, 100000, 100000, 100000, 100000, 100000, 100000, 100000, 100000, 100000, 100000, 100000, 100000, 100000, 100000, 100000, 100000, 100000, 100000, 100000, 100000, 100000, 100000, 100000,
  0, 92372, 97904, 100000, 100000, 100000, 100000, 100000, 100000, 100000, 100000, 100000, 100000, 100000, 100000, 100000, 100000, 100000, 100000, 100000, 100000, 100000, 100000, 100000, 100000, 100000, 100000, 100000, 100000, 100000, 100000, 100000, 100000,
  0, 91041, 94333, 98162, 99952, 100000, 100000, 100000, 100000, 100000, 100000, 100000, 100000, 100000, 100000, 100000, 100000, 100000, 100000, 100000, 100000, 100000, 100000, 100000, 100000, 100000, 100000, 100000, 100000, 100000, 100000, 100000, 100000,
  0, 91129, 92556, 95107, 97892, 99694, 100000, 100000, 100000, 100000, 100000, 100000, 100000, 100000, 100000, 100000, 100000, 100000, 100000, 100000, 100000, 100000, 100000, 100000, 100000, 100000, 100000, 100000, 100000, 100000, 100000, 100000, 100000,
  0, 91444, 91255, 93227, 95312, 97481, 98993, 99849, 100000, 100000, 100000, 100000, 100000, 100000, 100000, 100000, 100000, 100000, 100000, 100000, 100000, 100000, 100000, 100000, 100000, 100000, 100000, 100000, 100000, 100000, 100000, 100000, 100000,
  0, 92211, 90971, 92234, 93333, 95325, 96955, 98484, 99377, 99906, 100000, 100000, 100000, 100000, 100000, 100000, 100000, 100000, 100000, 100000, 100000, 100000, 100000, 100000, 100000, 100000, 100000, 100000, 100000, 100000, 100000, 100000, 100000,
  0, 92105, 90951, 90438, 91948, 93266, 95063, 96493, 97624, 98773, 99243, 99771, 100000, 100000, 100000, 100000, 100000, 100000, 100000, 100000, 100000, 100000, 100000, 100000, 100000, 100000, 100000, 100000, 100000, 100000, 100000, 100000, 100000,
  0, 93319, 90727, 90564, 91429, 92192, 93309, 94482, 95808, 96911, 98118, 98649, 99368, 99612, 99970, 100000, 100000, 100000, 100000, 100000, 100000, 100000, 100000, 100000, 100000, 100000, 100000, 100000, 100000, 100000, 100000, 100000, 100000,
  0, 93668, 92183, 90433, 90694, 91307, 92097, 92911, 93944, 94866, 96369, 97152, 97981, 98739, 99202, 99612, 99842, 100000, 100000, 100000, 100000, 100000, 100000, 100000, 100000, 100000, 100000, 100000, 100000, 100000, 100000, 100000, 100000,
  0, 94068, 92066, 90915, 90752, 90666, 91034, 91983, 92714, 93627, 94461, 95583, 96388, 97285, 97897, 98508, 99061, 99297, 99718, 99822, 99968, 100000, 100000, 100000, 100000, 100000, 100000, 100000, 100000, 100000, 100000, 99989, 100000,
  0, 93685, 92307, 91332, 90610, 90211, 90634, 90993, 91704, 92289, 93010, 93981, 94592, 95523, 96451, 97098, 97817, 98269, 98884, 99313, 99535, 99652, 99917, 100000, 100000, 100000, 100000, 100000, 100000, 100000, 99977, 99991, 100000,
  0, 94354, 93049, 91650, 90942, 90444, 90122, 90528, 90767, 91449, 91912, 92378, 93187, 93836, 95003, 95643, 96406, 97037, 97697, 98229, 98645, 98919, 99455, 99548, 99795, 99904, 99946, 100000, 100000, 100000, 99983, 99983, 100000,
  0, 92864, 92993, 91421, 90439, 90278, 89667, 89745, 90254, 90401, 91168, 91447, 91952, 92479, 93186, 93970, 94794, 95461, 96055, 96701, 97568, 98037, 98558, 98906, 99204, 99525, 99706, 99882, 99896, 99982, 99949, 100000, 100000,
  0, 94134, 93047, 92460, 91805, 90357, 89555, 89539, 90060, 89829, 89897, 90588, 90864, 91491, 91867, 92284, 92984, 93915, 94173, 95283, 96038, 96478, 97284, 97816, 98285, 98730, 99203, 99438, 99703, 99840, 99906, 100000, 100000,
  0, 93970, 93186, 91736, 91642, 90312, 90217, 89881, 88999, 89109, 89861, 89683, 90024, 90476, 90548, 90946, 91602, 92163, 92532, 93427, 94093, 95076, 95650, 96516, 96969, 97509, 98103, 98638, 99034, 99415, 99703, 99893, 99999,
  0, 93786, 93542, 92989, 91328, 90596, 90439, 89262, 89356, 89447, 88988, 89292, 89436, 88992, 89722, 90024, 90081, 90797, 91038, 91756, 92515, 93182, 94015, 94533, 95353, 96023, 96793, 97464, 98132, 98622, 99183, 99613, 99949,
  0, 94443, 93077, 92609, 91117, 90976, 90006, 90093, 88895, 88555, 88430, 88049, 88549, 88704, 88626, 88682, 89273, 89344, 89761, 90479, 90890, 91386, 91942, 92718, 93375, 94233, 94941, 95794, 96411, 97350, 98190, 98942, 99695,
  0, 93508, 93540, 92171, 91698, 90640, 89434, 89166, 89003, 88416, 88173, 87728, 88032, 87905, 88074, 88275, 88495, 88196, 88492, 88593, 88965, 89366, 90142, 90646, 91413, 92338, 92900, 93720, 94604, 95660, 96626, 97628, 98898,
  0, 94417, 93808, 92522, 91873, 91110, 89636, 89362, 89040, 88969, 88624, 87711, 87650, 87487, 87396, 87030, 86887, 87312, 87215, 87263, 87421, 87836, 88164, 88744, 89232, 89919, 90606, 91468, 92376, 93345, 94327, 95530, 97056,
  0, 93061, 93999, 92784, 91504, 90673, 89685, 89212, 88725, 87726, 87727, 86730, 86857, 86801, 86327, 86186, 86301, 85704, 85903, 85987, 86322, 86245, 86653, 86854, 87137, 87570, 88304, 88836, 89629, 90842, 91498, 92872, 94125,
  0, 94020, 92956, 92790, 91331, 90878, 89462, 89373, 88645, 87900, 88045, 86844, 86406, 86277, 85831, 85669, 85060, 84845, 84685, 84478, 84610, 84417, 84707, 84441, 84812, 85063, 85570, 86002, 86959, 87359, 87973, 89003, 90187,
  0, 93565, 92840, 92265, 91277, 90805, 90266, 89373, 88649, 88348, 86852, 86962, 86407, 85354, 85201, 84430, 84254, 84003, 83880, 83396, 83359, 82894, 82758, 83039, 82446, 82401, 82796, 83160, 83134, 83877, 84109, 84834, 85321,
  0, 93583, 92829, 92043, 91376, 90027, 90277, 88562, 87706, 87212, 87339, 86195, 85319, 84522, 84761, 83767, 83249, 83167, 82650, 82197, 81516, 80997, 81149, 80556, 80448, 80116, 79751, 79893, 79723, 79686, 79696, 79587, 80117,
  0, 93485, 92132, 91838, 91080, 90168, 89926, 88129, 88158, 87115, 86300, 85717, 84708, 84031, 83737, 83160, 82348, 81770, 81402, 80412, 80176, 79349, 79124, 78569, 77854, 77212, 76819, 75935, 75692, 75453, 74926, 74598, 74344,
  0, 92745, 92349, 91308, 90742, 90013, 88996, 88032, 87345, 86447, 85764, 85116, 84721, 83343, 82514, 81702, 81552, 80746, 79830, 78783, 77908, 77524, 76946, 75850, 75182, 74300, 73469, 72574, 71566, 70887, 69941, 69119, 68411,
  0, 92318, 91646, 91232, 89345, 90016, 89156, 87970, 86990, 86053, 85274, 84124, 83532, 81901, 81431, 80664, 80004, 78883, 78104, 76692, 76395, 75487, 74615, 73551, 72453, 71371, 69621, 68780, 67518, 65975, 64748, 63431, 62765,
  0, 91507, 91887, 90499, 90142, 88454, 88050, 87180, 86054, 84918, 84150, 83514, 82115, 81438, 80240, 79440, 78172, 77451, 76345, 75091, 74144, 73153, 71656, 70717, 69353, 67631, 65776, 64283, 63075, 61418, 59615, 58340, 57106,
  0, 90244, 89541, 89880, 88588, 87825, 87301, 86399, 85419, 84005, 82768, 82092, 80912, 79819, 78739, 77739, 76942, 75860, 74301, 73097, 71739, 70185, 68879, 67060, 66043, 64048, 62229, 60280, 58766, 56803, 54814, 53070, 51701,
  0, 90428, 89554, 89357, 88006, 87192, 85875, 85599, 83462, 83299, 81917, 80572, 79145, 78616, 77224, 75349, 74356, 73141, 71580, 70483, 69308, 67259, 65518, 63796, 62117, 60444, 58483, 56250, 54098, 51956, 50107, 48495, 46446]

/-- GGX directional albedo table entries, scaled by 100000; COMP*COMP row-major entries, 33 per source row. -/
def mGGXEData : List Nat := [
  0, 100000, 100000, 100000, 100000, 100000, 100000, 100000, 100000, 100000, 100000, 100000, 100000, 100000, 100000, 100000, 100000, 100000, 100000, 100000, 100000, 100000, 100000, 100000, 100000, 100000, 100000, 100000, 100000, 100000, 100000, 100000, 100000,
  0, 100000, 100000, 100000, 100000, 100000, 100000, 100000, 100000, 100000, 100000, 100000, 100000, 100000, 100000, 100000, 100000, 100000, 100000, 100000, 100000, 99973, 100000, 100000, 100000, 100000, 100000, 100000, 100000, 100000, 100000, 100000, 100000,
  0, 98761, 99844, 100000, 100000, 100000, 100000, 100000, 100000, 100000, 100000, 100000, 100000, 100000, 100000, 100000, 100000, 100000, 100000, 100000, 100000, 100000, 100000, 100000, 100000, 100000, 100000, 100000, 100000, 100000, 100000, 100000, 100000,
  0, 94614, 98345, 99383, 99774, 99862, 100000, 100000, 100000, 100000, 100000, 100000, 100000, 100000, 100000, 100000, 100000, 100000, 100000, 100000, 100000, 100000, 100000, 100000, 100000, 100000, 100000, 100000, 100000, 100000, 100000, 100000, 100000,
  0, 88296, 95154, 97741, 98698, 99329, 99560, 99787, 99856, 99907, 99912, 99983, 99985, 100000, 100000, 100000, 100000, 100000, 100000, 100000, 100000, 100000, 100000, 100000, 100000, 100000, 99998, 100000, 100000, 99994, 99995, 100000, 100000,
  0, 84597, 91149, 94714, 96925, 97859, 98610, 98971, 99274, 99481, 99585, 99671, 99732, 99842, 99883, 99942, 99962, 100000, 99968, 99981, 99973, 99970, 99984, 100000, 99986, 100000, 99993, 100000, 100000, 99991, 99991, 100000, 100000,
  0, 82443, 87043, 91170, 94271, 95931, 97118, 97902, 98358, 98730, 98961, 99244, 99369, 99455, 99565, 99692, 99741, 99859, 99847, 99842, 99846, 99944, 99950, 99914, 99989, 99956, 99948, 99963, 99980, 99985, 99987, 99995, 100000,
  0, 81909, 84686, 87943, 91015, 93712, 94963, 96091, 97019, 97587, 97949, 98371, 98665, 98780, 99133, 99099, 99312, 99411, 99548, 99646, 99642, 99743, 99795, 99853, 99851, 99864, 99908, 99935, 99960, 99970, 99966, 99979, 100000,
  0, 81940, 83133, 85457, 88055, 90547, 92506, 94044, 95087, 96057, 96824, 97366, 97621, 98011, 98389, 98515, 98709, 98951, 98994, 99214, 99377, 99446, 99472, 99582, 99662, 99759, 99793, 99797, 99862, 99911, 99936, 99971, 99999,
  0, 81852, 82207, 84101, 85853, 88006, 89833, 91658, 93062, 94162, 95122, 95779, 96298, 96910, 97237, 97640, 97846, 98202, 98347, 98601, 98847, 98945, 99104, 99123, 99235, 99427, 99492, 99623, 99635, 99717, 99845, 99927, 99987,
  0, 81056, 81921, 82164, 83990, 85764, 87696, 89427, 90621, 92080, 92926, 93960, 94700, 95468, 95994, 96421, 96772, 97182, 97591, 97717, 98062, 98194, 98596, 98543, 98798, 98955, 98995, 99142, 99316, 99433, 99572, 99638, 99888,
  0, 81708, 80955, 82100, 83394, 84099, 85746, 87065, 88423, 89606, 91007, 91762, 92957, 93552, 94409, 95064, 95448, 95949, 96415, 96644, 97060, 97493, 97686, 98006, 97990, 98337, 98545, 98561, 98822, 98873, 99055, 99229, 99330,
  0, 81980, 81689, 81155, 81990, 82872, 84109, 85469, 86425, 87514, 89072, 89771, 90658, 91800, 92481, 93194, 93736, 94514, 94726, 95272, 95793, 96077, 96522, 96849, 97014, 97460, 97418, 97755, 97983, 98151, 98301, 98415, 98555,
  0, 81977, 81467, 80953, 81807, 81888, 82653, 83930, 84579, 85937, 86825, 87985, 88718, 89825, 90482, 91187, 91933, 92432, 93264, 93670, 94186, 94845, 95070, 95438, 95833, 96062, 96456, 96594, 96792, 96998, 97067, 97336, 97642,
  0, 81589, 81562, 81469, 81091, 81523, 81912, 82740, 83571, 84018, 84979, 86101, 86549, 87400, 88495, 89155, 89880, 90404, 91182, 91991, 92380, 92771, 93334, 93759, 94271, 94448, 94692, 95112, 95267, 95611, 95690, 95981, 96251,
  0, 80940, 81600, 80984, 81076, 81157, 80872, 81690, 82149, 82658, 83418, 84114, 84700, 85501, 86712, 87225, 87875, 88429, 89045, 89667, 90018, 90386, 91380, 91519, 92033, 92348, 92717, 93144, 93494, 93678, 93970, 94271, 94510,
  0, 79618, 80937, 80415, 79721, 80166, 79920, 80071, 81039, 80863, 82129, 82455, 83292, 83717, 84267, 84905, 85740, 86205, 86603, 87028, 88032, 88291, 88816, 89247, 89554, 90054, 90267, 90923, 91183, 91480, 91784, 92144, 92473,
  0, 80315, 80604, 80839, 80267, 79861, 79089, 79528, 79913, 80045, 80207, 80929, 81108, 81849, 82287, 82485, 83176, 83890, 83847, 84599, 85266, 85466, 86113, 86599, 86901, 87355, 87945, 88219, 88649, 88850, 89240, 89830, 90000,
  0, 80230, 79895, 79135, 79422, 78700, 79023, 79063, 78080, 78562, 79283, 79040, 79416, 79855, 79707, 80179, 80706, 80915, 81104, 81649, 82002, 82850, 83133, 83779, 84002, 84317, 84668, 85204, 85574, 85983, 86406, 86806, 87235,
  0, 79026, 79314, 79421, 78381, 77967, 78322, 77571, 77575, 77544, 77409, 77701, 77621, 77064, 77857, 77911, 77844, 78388, 78345, 78787, 79328, 79704, 80288, 80281, 80888, 81075, 81566, 82008, 82339, 82698, 83140, 83464, 84101,
  0, 79456, 77825, 78117, 76967, 77222, 76681, 76810, 75915, 75655, 75593, 75082, 75475, 75334, 75260, 75119, 75658, 75495, 75839, 76323, 76352, 76476, 76800, 77093, 77293, 77788, 78104, 78445, 78457, 79135, 79406, 79693, 80436,
  0, 77637, 78047, 76689, 76454, 75667, 74993, 74898, 74611, 74137, 73801, 73129, 73211, 73118, 73116, 73060, 73121, 72626, 72914, 72842, 72898, 73155, 73517, 73574, 73872, 74250, 74372, 74711, 74888, 75233, 75765, 76122, 76365,
  0, 76913, 76589, 75467, 75029, 74578, 73398, 73108, 72921, 72843, 72415, 71549, 71225, 70742, 70646, 70149, 69833, 69938, 69923, 69750, 69774, 69767, 69843, 70156, 70247, 70421, 70648, 70774, 71180, 71292, 71446, 71795, 72179,
  0, 74800, 75308, 74227, 73256, 72815, 71876, 71196, 70905, 69855, 69791, 68587, 68442, 68213, 67788, 67384, 67382, 66757, 66716, 66585, 66758, 66532, 66780, 66658, 66625, 66679, 66683, 66776, 66835, 67282, 67216, 67736, 67853,
  0, 74344, 73417, 72677, 71498, 71223, 69738, 69498, 68638, 68043, 67752, 66636, 65939, 65837, 65347, 64829, 64052, 63946, 63489, 63317, 63236, 63001, 63092, 62790, 62696, 62699, 62868, 62644, 63019, 62756, 62844, 62970, 63288,
  0, 72171, 71312, 70971, 69773, 69304, 68404, 67581, 66822, 66215, 64643, 64533, 63952, 62919, 62571, 61657, 61287, 61163, 60659, 60043, 60056, 59613, 59314, 59531, 59097, 58653, 58887, 58707, 58312, 58693, 58313, 58769, 58768,
  0, 70441, 69851, 68953, 67907, 66470, 66519, 64720, 63870, 62979, 62773, 61570, 60607, 60026, 59848, 59096, 58486, 58225, 57697, 57144, 56465, 56027, 56087, 55532, 55602, 55249, 54832, 54709, 54598, 54351, 54184, 54134, 54273,
  0, 68966, 67571, 66732, 65594, 64478, 63961, 62358, 61918, 60635, 59775, 59020, 57982, 57364, 56813, 56074, 55415, 54887, 54446, 53826, 53434, 52649, 52505, 52210, 51579, 51277, 51195, 50514, 50502, 50326, 49879, 49953, 49877,
  0, 66681, 65937, 64702, 63533, 62367, 61175, 59841, 59082, 57918, 57191, 56382, 55842, 54560, 53646, 52800, 52479, 52077, 51320, 50320, 49712, 49475, 49148, 48407, 48096, 47871, 47474, 46980, 46506, 46342, 45971, 45802, 45606,
  0, 64732, 63242, 62413, 60357, 60198, 59127, 57660, 56489, 55434, 54392, 53386, 52663, 51371, 50742, 49963, 49469, 48512, 47991, 47011, 46808, 46357, 45838, 45362, 44792, 44437, 43621, 43344, 42984, 42421, 42137, 41664, 41707,
  0, 62252, 61498, 59817, 58823, 56956, 56126, 54888, 53585, 52425, 51400, 50707, 49569, 48895, 47918, 47300, 46269, 45649, 45106, 44037, 43635, 43121, 42357, 41911, 41321, 40625, 39953, 39712, 39427, 38964, 38337, 38152, 37943,
  0, 59474, 57969, 57584, 55757, 54637, 53605, 52271, 51127, 49754, 48528, 47783, 46801, 45806, 45006, 44208, 43486, 42926, 41969, 41277, 40500, 39650, 39280, 38256, 38112, 37369, 36920, 36316, 36168, 35525, 34964, 34579, 34303,
  0, 57758, 56217, 55254, 53528, 52106, 50656, 49792, 47830, 47319, 45925, 44927, 43787, 43241, 42233, 41142, 40254, 39635, 38720, 38202, 37763, 36690, 36002, 35406, 34894, 34297, 33854, 33175, 32604, 32019, 31625, 31480, 30903]

/-- Beckmann 1 - average albedo table entries, scaled by 100000; COMP entries. -/
def mBeckmannOneMinusEavgData : List Nat := [
  35, 0, 0, 0, 0, 13, 40, 82, 151, 244, 398, 585, 845, 1183, 1617, 2135, 2798, 3557, 4480, 5489, 6719, 8088, 9632, 11434, 13464, 15585, 17984, 20522, 23245, 26100, 29115, 32208, 35467]

/-- GGX 1 - average albedo table entries, scaled by 100000; COMP entries. -/
def mGGXOneMinusEavgData : List Nat := [
  0, 0, 0, 14, 75, 214, 443, 791, 1247, 1862, 2647, 3597, 4817, 6207, 7844, 9731, 11854, 14172, 16804, 19558, 22590, 25718, 29005, 32423, 35949, 39430, 42952, 46477, 49911, 53271, 56573, 59744, 62837]

/-- Beckmann directional albedo table (row-major, row = roughness bucket,
column = cosTheta bucket). -/
def mBeckmannE : List Rat := mBeckmannEData.map q5

/-- GGX directional albedo table (row-major, row = roughness bucket,
column = cosTheta bucket). -/
def mGGXE : List Rat := mGGXEData.map q5

/-- Beckmann table of 1 - average albedo, indexed by roughness bucket. -/
def mBeckmannOneMinusEavg : List Rat := mBeckmannOneMinusEavgData.map q5

/-- GGX table of 1 - average albedo, indexed by roughness bucket. -/
def mGGXOneMinusEavg : List Rat := mGGXOneMinusEavgData.map q5

/-- ReflectionAlbedo::rIndex: the shared 1-D roughness bucket primitive.
Returns the bucket floor(roughness * (COMP - 1)) as a natural number
together with the fractional interpolation weight. -/
def rIndex (roughness : Rat) : Nat × Rat :=
  let i := roughness * ((COMP : Rat) - 1)
  let indexI := ⌊i⌋
  (indexI.toNat, i - indexI)

/-- The result of ReflectionAlbedo::index (its three out-parameters). -/
structure IndexResult where
  w : Rat
  iLow : Nat
  iHigh : Nat
deriving DecidableEq

/-- ReflectionAlbedo::index: flattened 2-D index computation for E.
hIndex is clamped with COMP*COMP-1 (a bound sized for the flattened 2-D
table) and the cosTheta projection takes the ceiling of each flattened
value. -/
def index (cosTheta roughness : Rat) : IndexResult :=
  let lIndex := (rIndex roughness).1
  let w := (rIndex roughness).2
  let hIndex := min (lIndex + 1) (COMP * COMP - 1)
  let if1 := (lIndex : Rat) * (COMP : Rat) + cosTheta * ((COMP : Rat) - 1)
  let if2 := (hIndex : Rat) * (COMP : Rat) + cosTheta * ((COMP : Rat) - 1)
  ⟨w, ⌈if1⌉.toNat, ⌈if2⌉.toNat⟩

/-- ReflectionAlbedo::E: directional albedo lookup. The switch statement
has no default case and e is initialized to 0.0, so an unsupported variant
returns 0. -/
def E (type : MicrofacetDistribution) (cosTheta roughness : Rat) : Rat :=
  let r := index cosTheta roughness
  match type with
  | .beckmann => lerp (mBeckmannE.getD r.iLow 0) (mBeckmannE.getD r.iHigh 0) r.w
  | .ggx => lerp (mGGXE.getD r.iLow 0) (mGGXE.getD r.iHigh 0) r.w
  | .other _ => 0

/-- ReflectionAlbedo::oneMinusAvg: 1-D energy-deficit lookup; the high
index is clamped with COMP-1 (the bound sized for the 1-D table). -/
def oneMinusAvg (type : MicrofacetDistribution) (roughness : Rat) : Rat :=
  let iLow := (rIndex roughness).1
  let w := (rIndex roughness).2
  let iHigh := min (iLow + 1) (COMP - 1)
  match type with
  | .beckmann => lerp (mBeckmannOneMinusEavg.getD iLow 0) (mBeckmannOneMinusEavg.getD iHigh 0) w
  | .ggx => lerp (mGGXOneMinusEavg.getD iLow 0) (mGGXOneMinusEavg.getD iHigh 0) w
  | .other _ => 0

/-- The index computation as the spec words it (section 4.1 steps 1-3):
rLow = floor(roughness*(COMP-1)) with weight w = roughness*(COMP-1) - rLow,
rHigh = min(rLow+1, COMP*COMP-1), and the low/high flattened indices are
the ceilings of rLow*COMP + cosTheta*(COMP-1) and
rHigh*COMP + cosTheta*(COMP-1). -/
def indexSpec (cosTheta roughness : Rat) : IndexResult :=
  let rLow : Int := ⌊roughness * ((COMP : Rat) - 1)⌋
  let w : Rat := roughness * ((COMP : Rat) - 1) - rLow
  let rHigh : Int := min (rLow + 1) ((COMP : Int) * (COMP : Int) - 1)
  ⟨w, ⌈(rLow : Rat) * (COMP : Rat) + cosTheta * ((COMP : Rat) - 1)⌉.toNat,
     ⌈(rHigh : Rat) * (COMP : Rat) + cosTheta * ((COMP : Rat) - 1)⌉.toNat⟩

/-- The 2-D albedo table of a supported variant (statement helper). -/
def table2d : MicrofacetDistribution → List Rat
  | .beckmann => mBeckmannE
  | .ggx => mGGXE
  | .other _ => []

end ReflectionAlbedo

namespace ReflectionAlbedo

/-- Every encoded table entry is nonnegative. -/
theorem q5_nonneg (n : ℕ) : 0 ≤ q5 n := by
  unfold q5; positivity

/-- An encoded entry with numerator at most 100000 is at most 1. -/
theorem q5_le_one {n : ℕ} (h : n ≤ 100000) : q5 n ≤ 1 := by
  unfold q5
  rw [div_le_one (by norm_num)]
  exact_mod_cast h

/-- The entry encoding is monotone. -/
theorem q5_mono {m n : ℕ} (h : m ≤ n) : q5 m ≤ q5 n := by
  unfold q5
  have hq : (m : ℚ) ≤ (n : ℚ) := Nat.cast_le.mpr h
  gcongr

/-- The entry encoding is strictly monotone. -/
theorem q5_lt {m n : ℕ} (h : m < n) : q5 m < q5 n := by
  unfold q5
  rw [div_lt_div_iff_of_pos_right (by norm_num)]
  exact_mod_cast h

/-- Interpolating with weight 0 returns the first endpoint. -/
theorem lerp_zero (a b : ℚ) : lerp a b 0 = a := by
  unfold lerp; ring

/-- rIndex written without the COMP abbreviation. -/
theorem rIndex_def (r : ℚ) : rIndex r = (⌊r * 32⌋.toNat, r * 32 - ⌊r * 32⌋) := by
  simp only [rIndex, COMP]
  norm_num

/-- index written without the COMP abbreviation. -/
theorem index_def (c r : ℚ) :
    index c r = ⟨(rIndex r).2,
      ⌈((rIndex r).1 : ℚ) * 33 + c * 32⌉.toNat,
      ⌈((min ((rIndex r).1 + 1) 1088 : ℕ) : ℚ) * 33 + c * 32⌉.toNat⟩ := by
  simp only [index, COMP]
  norm_num

/-- At a grid sample k/32 the bucket is k and the weight 0. -/
theorem rIndex_grid (k : ℕ) : rIndex ((k : ℚ)/32) = (k, 0) := by
  unfold rIndex
  have h32 : ((COMP : ℚ) - 1) = 32 := by norm_num [COMP]
  rw [h32]
  have hk : (k : ℚ)/32 * 32 = (k : ℚ) := by field_simp
  rw [hk]
  simp

/-- At a grid point (j/32, k/32) the ceil-based flattened indices are exact. -/
theorem index_grid (j k : ℕ) :
    index ((j : ℚ)/32) ((k : ℚ)/32) =
      ⟨0, k * 33 + j, (min (k + 1) 1088) * 33 + j⟩ := by
  simp only [index, COMP, rIndex_grid]
  simp only [IndexResult.mk.injEq]
  refine ⟨trivial, ?_, ?_⟩
  · have h1 : (k:ℚ) * ((33:ℕ):ℚ) + (j:ℚ)/32 * (((33:ℕ):ℚ) - 1) = ((k*33+j : ℕ) : ℚ) := by
      push_cast
      ring
    rw [h1, Int.ceil_natCast]
    omega
  · have h2 : ((min (k+1) (33*33-1) : ℕ):ℚ) * ((33:ℕ):ℚ) + (j:ℚ)/32 * (((33:ℕ):ℚ) - 1)
        = (((min (k+1) 1088) * 33 + j : ℕ) : ℚ) := by
      push_cast
      ring
    rw [h2, Int.ceil_natCast]
    omega

/-- Reading the rational table is reading the encoded table through q5. -/
theorem getD_map_q5 (l : List ℕ) (i : ℕ) (h : i < l.length) :
    (l.map q5).getD i 0 = q5 (l.getD i 0) := by
  rw [List.getD_eq_getElem _ _ (by simpa using h), List.getD_eq_getElem _ _ h,
    List.getElem_map]

end ReflectionAlbedo

namespace ReflectionAlbedo

/-- At a grid point, E for the Beckmann variant reads one table entry. -/
theorem E_beckmann_grid (j k : ℕ) :
    E .beckmann ((j : ℚ)/32) ((k : ℚ)/32) = mBeckmannE.getD (k * 33 + j) 0 := by
  simp only [E, index_grid]
  exact lerp_zero _ _

/-- At a grid point, E for the GGX variant reads one table entry. -/
theorem E_ggx_grid (j k : ℕ) :
    E .ggx ((j : ℚ)/32) ((k : ℚ)/32) = mGGXE.getD (k * 33 + j) 0 := by
  simp only [E, index_grid]
  exact lerp_zero _ _

/-- At a grid sample, oneMinusAvg for Beckmann reads one table entry. -/
theorem oneMinusAvg_beckmann_grid (k : ℕ) :
    oneMinusAvg .beckmann ((k : ℚ)/32) = mBeckmannOneMinusEavg.getD k 0 := by
  simp only [oneMinusAvg, rIndex_grid]
  exact lerp_zero _ _

/-- At a grid sample, oneMinusAvg for GGX reads one table entry. -/
theorem oneMinusAvg_ggx_grid (k : ℕ) :
    oneMinusAvg .ggx ((k : ℚ)/32) = mGGXOneMinusEavg.getD k 0 := by
  simp only [oneMinusAvg, rIndex_grid]
  exact lerp_zero _ _

/-- For roughness at most 1 the roughness bucket is at most 32. -/
theorem rIndex_fst_le (r : ℚ) (h1 : r ≤ 1) : (rIndex r).1 ≤ 32 := by
  rw [rIndex_def]
  have h2 : ⌊r * 32⌋ ≤ 32 := by
    have h3 : ⌊r * 32⌋ ≤ ⌊(32 : ℚ)⌋ := Int.floor_mono (by linarith)
    simpa using h3
  omega

/-- For roughness strictly below 1 the roughness bucket is at most 31. -/
theorem rIndex_fst_le_31 (r : ℚ) (h1 : r < 1) : (rIndex r).1 ≤ 31 := by
  rw [rIndex_def]
  have h2 : ⌊r * 32⌋ < 32 := by
    rw [Int.floor_lt]
    push_cast
    linarith
  omega

/-- The interpolation weight is nonnegative. -/
theorem rIndex_snd_nonneg (r : ℚ) : 0 ≤ (rIndex r).2 := by
  rw [rIndex_def]
  have h := Int.floor_le (r * 32)
  simp only
  linarith

/-- The interpolation weight is below 1. -/
theorem rIndex_snd_lt_one (r : ℚ) : (rIndex r).2 < 1 := by
  rw [rIndex_def]
  have h := Int.lt_floor_add_one (r * 32)
  simp only
  linarith

/-- Bucket plus weight reconstruct the scaled roughness. -/
theorem rIndex_sum (r : ℚ) (h0 : 0 ≤ r) : ((rIndex r).1 : ℚ) + (rIndex r).2 = r * 32 := by
  rw [rIndex_def]
  have hnn : 0 ≤ ⌊r * 32⌋ := Int.floor_nonneg.mpr (by positivity)
  simp only
  have h2 : ((⌊r * 32⌋.toNat : ℕ) : ℚ) = ((⌊r * 32⌋ : ℤ) : ℚ) := by
    exact_mod_cast Int.toNat_of_nonneg hnn
  rw [h2]
  ring

/-- A convex interpolation lies between the two endpoints. -/
theorem lerp_between (a b t : ℚ) (h0 : 0 ≤ t) (h1 : t ≤ 1) :
    min a b ≤ lerp a b t ∧ lerp a b t ≤ max a b := by
  unfold lerp
  rcases le_total a b with h | h
  · rw [min_eq_left h, max_eq_right h]
    constructor <;> nlinarith
  · rw [min_eq_right h, max_eq_left h]
    constructor <;> nlinarith

end ReflectionAlbedo

namespace ReflectionAlbedo

/-- The GGX energy-deficit data is non-decreasing between any two in-range
positions (checked on the constant data). -/
theorem ggx_deficit_data_mono : ∀ j < 33, ∀ i < 33, i ≤ j →
    mGGXOneMinusEavgData.getD i 0 ≤ mGGXOneMinusEavgData.getD j 0 := by decide

/-- The rational GGX energy-deficit table is non-decreasing between any two
in-range positions. -/
theorem ggx_deficit_mono_entries {i j : ℕ} (hij : i ≤ j) (hj : j ≤ 32) :
    mGGXOneMinusEavg.getD i 0 ≤ mGGXOneMinusEavg.getD j 0 := by
  have hlen : mGGXOneMinusEavgData.length = 33 := by decide
  rw [show mGGXOneMinusEavg = mGGXOneMinusEavgData.map q5 from rfl,
    getD_map_q5 _ _ (by omega), getD_map_q5 _ _ (by omega)]
  exact q5_mono (ggx_deficit_data_mono j (by omega) i (by omega) hij)

/-- oneMinusAvg for GGX written as one interpolation. -/
theorem oneMinusAvg_ggx_def (r : ℚ) :
    oneMinusAvg .ggx r = lerp (mGGXOneMinusEavg.getD (rIndex r).1 0)
      (mGGXOneMinusEavg.getD (min ((rIndex r).1 + 1) 32) 0) (rIndex r).2 := rfl

/-- The GGX energy deficit is at least the low looked-up entry. -/
theorem ggx_deficit_lower (r : ℚ) (h1 : r ≤ 1) :
    mGGXOneMinusEavg.getD (rIndex r).1 0 ≤ oneMinusAvg .ggx r := by
  rw [oneMinusAvg_ggx_def]
  have hk := rIndex_fst_le r h1
  have hd : mGGXOneMinusEavg.getD (rIndex r).1 0
      ≤ mGGXOneMinusEavg.getD (min ((rIndex r).1 + 1) 32) 0 :=
    ggx_deficit_mono_entries (by omega) (by omega)
  have hw := rIndex_snd_nonneg r
  unfold lerp
  nlinarith

/-- The GGX energy deficit is at most the high looked-up entry. -/
theorem ggx_deficit_upper (r : ℚ) (h1 : r ≤ 1) :
    oneMinusAvg .ggx r ≤ mGGXOneMinusEavg.getD (min ((rIndex r).1 + 1) 32) 0 := by
  rw [oneMinusAvg_ggx_def]
  have hk := rIndex_fst_le r h1
  have hd : mGGXOneMinusEavg.getD (rIndex r).1 0
      ≤ mGGXOneMinusEavg.getD (min ((rIndex r).1 + 1) 32) 0 :=
    ggx_deficit_mono_entries (by omega) (by omega)
  have hw := rIndex_snd_lt_one r
  unfold lerp
  nlinarith

/-- Entries of a table built through q5 from data bounded by 100000 lie in
the unit interval. -/
theorem bounded_of_all_le (l : List ℕ) (h : l.all (fun n => n ≤ 100000) = true) :
    ∀ q ∈ l.map q5, 0 ≤ q ∧ q ≤ 1 := by
  intro q hq
  rcases List.mem_map.mp hq with ⟨n, hn, rfl⟩
  refine ⟨q5_nonneg n, q5_le_one ?_⟩
  have hb := List.all_eq_true.mp h n hn
  simpa using hb

/-- Claim C1, counterexample: at the in-range input cosTheta = 0 and
roughness = 1 the high flattened index computed by ReflectionAlbedo::index
equals COMP*COMP = 1089 and is therefore not a valid index of the
COMP*COMP-entry table, contradicting the claim as stated. -/
theorem albedo_index_overflow_at_roughness_one :
    ¬ ((index 0 1).iHigh < COMP * COMP) ∧ (index 0 1).iHigh = COMP * COMP := by
  have h0 : (0 : ℚ) = ((0 : ℕ) : ℚ)/32 := by norm_num
  have h1 : (1 : ℚ) = ((32 : ℕ) : ℚ)/32 := by norm_num
  rw [h0, h1, index_grid]
  norm_num [COMP]

/-- Claim C1, amended: for both supported variants and every cosTheta in
[0,1] and roughness in [0,1), both flattened indices looked up by
ReflectionAlbedo::E are valid indices of the COMP*COMP table and the result
is a convex interpolation of the two entries touched, hence lies between
their minimum and maximum. (At roughness exactly 1 the high index leaves
the table; see the counterexample.) -/
theorem albedo_interp_bounds_below_one (c r : ℚ) (hc0 : 0 ≤ c) (hc1 : c ≤ 1)
    (hr0 : 0 ≤ r) (hr1 : r < 1)
    (ty : MicrofacetDistribution) (hty : ty = .beckmann ∨ ty = .ggx) :
    (index c r).iLow < COMP * COMP ∧ (index c r).iHigh < COMP * COMP ∧
    min ((table2d ty).getD (index c r).iLow 0) ((table2d ty).getD (index c r).iHigh 0)
      ≤ E ty c r ∧
    E ty c r ≤ max ((table2d ty).getD (index c r).iLow 0)
      ((table2d ty).getD (index c r).iHigh 0) := by
  have hk : (rIndex r).1 ≤ 31 := rIndex_fst_le_31 r hr1
  have hkq : ((rIndex r).1 : ℚ) ≤ 31 := by exact_mod_cast hk
  have hlow : (index c r).iLow ≤ 1055 := by
    rw [index_def]
    have harg : ((rIndex r).1 : ℚ) * 33 + c * 32 ≤ 1055 := by nlinarith
    have hceil : ⌈((rIndex r).1 : ℚ) * 33 + c * 32⌉ ≤ 1055 := by
      rw [Int.ceil_le]
      push_cast
      exact harg
    simp only
    omega
  have hhigh : (index c r).iHigh ≤ 1088 := by
    rw [index_def]
    have hminq : ((min ((rIndex r).1 + 1) 1088 : ℕ) : ℚ) ≤ 32 := by
      have hm : min ((rIndex r).1 + 1) 1088 ≤ 32 := by omega
      exact_mod_cast hm
    have harg : ((min ((rIndex r).1 + 1) 1088 : ℕ) : ℚ) * 33 + c * 32 ≤ 1088 := by nlinarith
    have hceil : ⌈((min ((rIndex r).1 + 1) 1088 : ℕ) : ℚ) * 33 + c * 32⌉ ≤ 1088 := by
      rw [Int.ceil_le]
      push_cast at harg ⊢
      exact harg
    simp only
    omega
  have hw : (index c r).w = (rIndex r).2 := by rw [index_def]
  have hw0 : 0 ≤ (index c r).w := by rw [hw]; exact rIndex_snd_nonneg r
  have hw1 : (index c r).w ≤ 1 := by rw [hw]; exact le_of_lt (rIndex_snd_lt_one r)
  rw [show COMP * COMP = 1089 from rfl]
  refine ⟨by omega, by omega, ?_, ?_⟩
  · rcases hty with rfl | rfl
    · exact (lerp_between (mBeckmannE.getD (index c r).iLow 0)
        (mBeckmannE.getD (index c r).iHigh 0) (index c r).w hw0 hw1).1
    · exact (lerp_between (mGGXE.getD (index c r).iLow 0)
        (mGGXE.getD (index c r).iHigh 0) (index c r).w hw0 hw1).1
  · rcases hty with rfl | rfl
    · exact (lerp_between (mBeckmannE.getD (index c r).iLow 0)
        (mBeckmannE.getD (index c r).iHigh 0) (index c r).w hw0 hw1).2
    · exact (lerp_between (mGGXE.getD (index c r).iLow 0)
        (mGGXE.getD (index c r).iHigh 0) (index c r).w hw0 hw1).2

/-- Claim C1, witness at cosTheta = 0, roughness = 0, Beckmann variant. -/
theorem albedo_interp_bounds_witness :
    (0 : ℚ) ≤ 0 ∧ (0 : ℚ) ≤ 1 ∧ (0 : ℚ) < 1 ∧
    ((index 0 0).iLow < COMP * COMP ∧ (index 0 0).iHigh < COMP * COMP ∧
     min ((table2d .beckmann).getD (index 0 0).iLow 0)
       ((table2d .beckmann).getD (index 0 0).iHigh 0) ≤ E .beckmann 0 0 ∧
     E .beckmann 0 0 ≤ max ((table2d .beckmann).getD (index 0 0).iLow 0)
       ((table2d .beckmann).getD (index 0 0).iHigh 0)) :=
  ⟨le_refl 0, zero_le_one, zero_lt_one,
   albedo_interp_bounds_below_one 0 0 (le_refl 0) zero_le_one (le_refl 0) zero_lt_one
     .beckmann (Or.inl rfl)⟩

/-- Claim C2, counterexample: the Beckmann energy deficit strictly
decreases from roughness 0 to roughness 1/32, and the albedo of both
variants strictly decreases between adjacent roughness grid samples at
fixed cosTheta = 1/32, so three of the four monotonicity assertions of the
claim fail on the constant data. -/
theorem monotonicity_counterexample :
    oneMinusAvg .beckmann (1/32) < oneMinusAvg .beckmann 0 ∧
    E .beckmann (1/32) (5/32) < E .beckmann (1/32) (4/32) ∧
    E .ggx (1/32) (2/32) < E .ggx (1/32) (1/32) := by
  refine ⟨?_, ?_, ?_⟩
  · rw [show (0 : ℚ) = ((0 : ℕ) : ℚ)/32 by norm_num,
      show (1/32 : ℚ) = ((1 : ℕ) : ℚ)/32 by norm_num,
      oneMinusAvg_beckmann_grid 1, oneMinusAvg_beckmann_grid 0,
      show mBeckmannOneMinusEavg = mBeckmannOneMinusEavgData.map q5 from rfl,
      getD_map_q5 _ _ (by decide), getD_map_q5 _ _ (by decide)]
    exact q5_lt (by decide)
  · rw [show (1/32 : ℚ) = ((1 : ℕ) : ℚ)/32 by norm_num,
      show (5/32 : ℚ) = ((5 : ℕ) : ℚ)/32 by norm_num,
      show (4/32 : ℚ) = ((4 : ℕ) : ℚ)/32 by norm_num,
      E_beckmann_grid 1 5, E_beckmann_grid 1 4,
      show mBeckmannE = mBeckmannEData.map q5 from rfl,
      getD_map_q5 _ _ (by decide), getD_map_q5 _ _ (by decide)]
    exact q5_lt (by decide)
  · rw [show (1/32 : ℚ) = ((1 : ℕ) : ℚ)/32 by norm_num,
      show (2/32 : ℚ) = ((2 : ℕ) : ℚ)/32 by norm_num,
      E_ggx_grid 1 2, E_ggx_grid 1 1,
      show mGGXE = mGGXEData.map q5 from rfl,
      getD_map_q5 _ _ (by decide), getD_map_q5 _ _ (by decide)]
    exact q5_lt (by decide)

/-- Claim C2, amended: of the four monotonicity assertions only the GGX
energy deficit one holds on the constant data: oneMinusAvg for GGX is
monotonically non-decreasing in roughness over all of [0,1]; the albedo of
both variants and the Beckmann energy deficit admit strict decreases (see
the counterexample). -/
theorem energyDeficit_ggx_monotone (r1 r2 : ℚ) (h0 : 0 ≤ r1) (h12 : r1 ≤ r2)
    (h21 : r2 ≤ 1) :
    oneMinusAvg .ggx r1 ≤ oneMinusAvg .ggx r2 := by
  have hk2 : (rIndex r2).1 ≤ 32 := rIndex_fst_le r2 h21
  have hkm : (rIndex r1).1 ≤ (rIndex r2).1 := by
    have hf : ⌊r1 * 32⌋ ≤ ⌊r2 * 32⌋ := Int.floor_mono (by linarith)
    rw [rIndex_def, rIndex_def]
    simp only
    omega
  rcases Nat.lt_or_ge (rIndex r1).1 (rIndex r2).1 with hlt | hge
  · have s1 := ggx_deficit_upper r1 (by linarith)
    have s2 := ggx_deficit_lower r2 h21
    have smid : mGGXOneMinusEavg.getD (min ((rIndex r1).1 + 1) 32) 0
        ≤ mGGXOneMinusEavg.getD (rIndex r2).1 0 :=
      ggx_deficit_mono_entries (by omega) hk2
    linarith
  · have hkeq : (rIndex r1).1 = (rIndex r2).1 := le_antisymm hkm hge
    have hw12 : (rIndex r1).2 ≤ (rIndex r2).2 := by
      have s1 := rIndex_sum r1 h0
      have s2 := rIndex_sum r2 (by linarith)
      rw [hkeq] at s1
      linarith
    have hab : mGGXOneMinusEavg.getD (rIndex r2).1 0
        ≤ mGGXOneMinusEavg.getD (min ((rIndex r2).1 + 1) 32) 0 :=
      ggx_deficit_mono_entries (by omega) (by omega)
    rw [oneMinusAvg_ggx_def, oneMinusAvg_ggx_def, hkeq]
    unfold lerp
    nlinarith [mul_le_mul_of_nonneg_right hw12 (sub_nonneg.mpr hab)]

/-- Claim C2, witness at roughness 0 and 1 for the GGX variant. -/
theorem energyDeficit_ggx_monotone_witness :
    (0 : ℚ) ≤ 0 ∧ (0 : ℚ) ≤ 1 ∧ (1 : ℚ) ≤ 1 ∧
    oneMinusAvg .ggx 0 ≤ oneMinusAvg .ggx 1 :=
  ⟨le_refl 0, zero_le_one, le_refl 1,
   energyDeficit_ggx_monotone 0 1 (le_refl 0) zero_le_one (le_refl 1)⟩

/-- Claim C3 (confirmed): for in-range inputs the index computation of
ReflectionAlbedo::index coincides with the reference definition written
from the spec (floor-based roughness bucket and weight, high bucket
clamped with COMP*COMP-1, ceiling of both flattened projections), and E is
the linear interpolation of the two looked-up entries with that weight. -/
theorem index_matches_spec_reference (c r : ℚ) (hc0 : 0 ≤ c) (hc1 : c ≤ 1)
    (hr0 : 0 ≤ r) (hr1 : r ≤ 1) :
    indexSpec c r = index c r ∧
    E .beckmann c r = lerp (mBeckmannE.getD (index c r).iLow 0)
      (mBeckmannE.getD (index c r).iHigh 0) (index c r).w ∧
    E .ggx c r = lerp (mGGXE.getD (index c r).iLow 0)
      (mGGXE.getD (index c r).iHigh 0) (index c r).w := by
  refine ⟨?_, rfl, rfl⟩
  rw [index_def]
  have hnn : 0 ≤ ⌊r * 32⌋ := Int.floor_nonneg.mpr (by positivity)
  have hfst : ((rIndex r).1 : ℤ) = ⌊r * 32⌋ := by
    rw [rIndex_def]
    exact Int.toNat_of_nonneg hnn
  have hfstq : ((rIndex r).1 : ℚ) = ((⌊r * 32⌋ : ℤ) : ℚ) := by exact_mod_cast hfst
  have hsnd : (rIndex r).2 = r * 32 - ⌊r * 32⌋ := by rw [rIndex_def]
  simp only [indexSpec, COMP]
  simp only [IndexResult.mk.injEq]
  have h33 : (((33 : ℕ) : ℚ) - 1) = 32 := by norm_num
  refine ⟨?_, ?_, ?_⟩
  · rw [h33, hsnd]
  · rw [h33]
    congr 2
    rw [hfstq]
    norm_num
  · rw [h33]
    push_cast
    rw [hfstq]

/-- Claim C3, witness at cosTheta = 0, roughness = 0. -/
theorem index_matches_spec_reference_witness :
    (0 : ℚ) ≤ 0 ∧ (0 : ℚ) ≤ 1 ∧
    (indexSpec 0 0 = index 0 0 ∧
     E .beckmann 0 0 = lerp (mBeckmannE.getD (index 0 0).iLow 0)
       (mBeckmannE.getD (index 0 0).iHigh 0) (index 0 0).w ∧
     E .ggx 0 0 = lerp (mGGXE.getD (index 0 0).iLow 0)
       (mGGXE.getD (index 0 0).iHigh 0) (index 0 0).w) :=
  ⟨le_refl 0, zero_le_one,
   index_matches_spec_reference 0 0 (le_refl 0) zero_le_one (le_refl 0) zero_le_one⟩

/-- Claim C4 (confirmed): at every grid point cosTheta = j/32 and
roughness = k/32 the interpolation weight is 0, the low flattened index
chosen by the ceil-based reference indexing is k*33+j, and for both
variants E returns exactly that table entry. -/
theorem albedo_exact_on_grid (j k : ℕ) (hj : j ≤ 32) (hk : k ≤ 32) :
    (index ((j : ℚ)/32) ((k : ℚ)/32)).w = 0 ∧
    (index ((j : ℚ)/32) ((k : ℚ)/32)).iLow = k * 33 + j ∧
    E .beckmann ((j : ℚ)/32) ((k : ℚ)/32) = mBeckmannE.getD (k * 33 + j) 0 ∧
    E .ggx ((j : ℚ)/32) ((k : ℚ)/32) = mGGXE.getD (k * 33 + j) 0 :=
  ⟨by rw [index_grid], by rw [index_grid], E_beckmann_grid j k, E_ggx_grid j k⟩

/-- Claim C4, witness at j = 0, k = 0. -/
theorem albedo_exact_on_grid_witness :
    (0 : ℕ) ≤ 32 ∧ (0 : ℕ) ≤ 32 ∧
    ((index (((0 : ℕ) : ℚ)/32) (((0 : ℕ) : ℚ)/32)).w = 0 ∧
     (index (((0 : ℕ) : ℚ)/32) (((0 : ℕ) : ℚ)/32)).iLow = 0 * 33 + 0 ∧
     E .beckmann (((0 : ℕ) : ℚ)/32) (((0 : ℕ) : ℚ)/32) = mBeckmannE.getD (0 * 33 + 0) 0 ∧
     E .ggx (((0 : ℕ) : ℚ)/32) (((0 : ℕ) : ℚ)/32) = mGGXE.getD (0 * 33 + 0) 0) :=
  ⟨Nat.zero_le 32, Nat.zero_le 32, albedo_exact_on_grid 0 0 (Nat.zero_le 32) (Nat.zero_le 32)⟩

/-- Claim C5 (confirmed): at every grid sample roughness = k/32 the
roughness bucket is k, the interpolation weight is 0, and for both
variants oneMinusAvg returns exactly the stored 1-D entry at index k. -/
theorem energyDeficit_exact_on_grid (k : ℕ) (hk : k ≤ 32) :
    (rIndex ((k : ℚ)/32)).1 = k ∧
    (rIndex ((k : ℚ)/32)).2 = 0 ∧
    oneMinusAvg .beckmann ((k : ℚ)/32) = mBeckmannOneMinusEavg.getD k 0 ∧
    oneMinusAvg .ggx ((k : ℚ)/32) = mGGXOneMinusEavg.getD k 0 :=
  ⟨by rw [rIndex_grid], by rw [rIndex_grid],
   oneMinusAvg_beckmann_grid k, oneMinusAvg_ggx_grid k⟩

/-- Claim C5, witness at k = 0. -/
theorem energyDeficit_exact_on_grid_witness :
    (0 : ℕ) ≤ 32 ∧
    ((rIndex (((0 : ℕ) : ℚ)/32)).1 = 0 ∧
     (rIndex (((0 : ℕ) : ℚ)/32)).2 = 0 ∧
     oneMinusAvg .beckmann (((0 : ℕ) : ℚ)/32) = mBeckmannOneMinusEavg.getD 0 0 ∧
     oneMinusAvg .ggx (((0 : ℕ) : ℚ)/32) = mGGXOneMinusEavg.getD 0 0) :=
  ⟨Nat.zero_le 32, energyDeficit_exact_on_grid 0 (Nat.zero_le 32)⟩

/-- Claim C6 (confirmed): for every unsupported variant value and all
in-range inputs, E returns exactly 0; the embedding is a total function,
so no error is signalled. -/
theorem albedo_unsupported_returns_zero (n : ℕ) (c r : ℚ) (hc0 : 0 ≤ c)
    (hc1 : c ≤ 1) (hr0 : 0 ≤ r) (hr1 : r ≤ 1) :
    E (.other n) c r = 0 := rfl

/-- Claim C6, witness at variant other 0, cosTheta = 0, roughness = 0. -/
theorem albedo_unsupported_returns_zero_witness :
    (0 : ℚ) ≤ 0 ∧ (0 : ℚ) ≤ 1 ∧ (0 : ℚ) ≤ 0 ∧ (0 : ℚ) ≤ 1 ∧
    E (.other 0) 0 0 = 0 :=
  ⟨le_refl 0, zero_le_one, le_refl 0, zero_le_one,
   albedo_unsupported_returns_zero 0 0 0 (le_refl 0) zero_le_one (le_refl 0) zero_le_one⟩

/-- Claim C7 (confirmed): albedo for GGX at cosTheta = 1 and roughness = 0
is exactly the corner entry of the GGX 2-D table at flattened index
COMP - 1 = 32, whose value is 1.00000. -/
theorem albedo_ggx_corner_value :
    E .ggx 1 0 = mGGXE.getD (COMP - 1) 0 ∧ mGGXE.getD (COMP - 1) 0 = 1 := by
  rw [show COMP - 1 = 32 from rfl]
  constructor
  · have h := E_ggx_grid 32 0
    norm_num at h
    exact h
  · have hlen : (32 : ℕ) < mGGXEData.length := by decide
    have h := getD_map_q5 mGGXEData 32 hlen
    have hv : mGGXEData.getD 32 0 = 100000 := by decide
    rw [show mGGXE = mGGXEData.map q5 from rfl, h, hv]
    norm_num [q5]

/-- Claim C8 (confirmed): oneMinusAvg for GGX at roughness = 1 is exactly
the last entry (index COMP - 1 = 32) of the GGX 1-D table, with the high
index clamped to COMP - 1, whose value is 0.62837. -/
theorem energyDeficit_ggx_at_one :
    oneMinusAvg .ggx 1 = mGGXOneMinusEavg.getD (COMP - 1) 0 ∧
    min ((rIndex 1).1 + 1) (COMP - 1) = COMP - 1 ∧
    mGGXOneMinusEavg.getD (COMP - 1) 0 = 0.62837 := by
  rw [show COMP - 1 = 32 from rfl]
  refine ⟨?_, ?_, ?_⟩
  · have h := oneMinusAvg_ggx_grid 32
    norm_num at h
    exact h
  · have h1 : (1 : ℚ) = ((32 : ℕ) : ℚ)/32 := by norm_num
    rw [h1, rIndex_grid]
    rfl
  · have hlen : (32 : ℕ) < mGGXOneMinusEavgData.length := by decide
    have h := getD_map_q5 mGGXOneMinusEavgData 32 hlen
    have hv : mGGXOneMinusEavgData.getD 32 0 = 62837 := by decide
    rw [show mGGXOneMinusEavg = mGGXOneMinusEavgData.map q5 from rfl, h, hv]
    norm_num [q5]

/-- Claim C9 (confirmed): every entry of all four constant tables lies in
the closed interval [0,1], and the tables have COMP*COMP respectively COMP
entries. -/
theorem table_entries_unit_interval :
    (∀ q ∈ mBeckmannE, 0 ≤ q ∧ q ≤ 1) ∧
    (∀ q ∈ mGGXE, 0 ≤ q ∧ q ≤ 1) ∧
    (∀ q ∈ mBeckmannOneMinusEavg, 0 ≤ q ∧ q ≤ 1) ∧
    (∀ q ∈ mGGXOneMinusEavg, 0 ≤ q ∧ q ≤ 1) ∧
    mBeckmannE.length = COMP * COMP ∧ mGGXE.length = COMP * COMP ∧
    mBeckmannOneMinusEavg.length = COMP ∧ mGGXOneMinusEavg.length = COMP := by
  refine ⟨bounded_of_all_le mBeckmannEData (by rfl),
    bounded_of_all_le mGGXEData (by rfl),
    bounded_of_all_le mBeckmannOneMinusEavgData (by rfl),
    bounded_of_all_le mGGXOneMinusEavgData (by rfl), ?_, ?_, ?_, ?_⟩
  · rw [show mBeckmannE = mBeckmannEData.map q5 from rfl, List.length_map,
      show COMP * COMP = 1089 from rfl]
    decide
  · rw [show mGGXE = mGGXEData.map q5 from rfl, List.length_map,
      show COMP * COMP = 1089 from rfl]
    decide
  · rw [show mBeckmannOneMinusEavg = mBeckmannOneMinusEavgData.map q5 from rfl,
      List.length_map, show COMP = 33 from rfl]
    decide
  · rw [show mGGXOneMinusEavg = mGGXOneMinusEavgData.map q5 from rfl,
      List.length_map, show COMP = 33 from rfl]
    decide

/-- Claim C9, witness at the first Beckmann energy-deficit entry 0.00035,
encoded as q5 35. -/
theorem table_entries_unit_interval_witness : 0 ≤ q5 35 ∧ q5 35 ≤ 1 :=
  table_entries_unit_interval.2.2.1 (q5 35) (List.mem_map_of_mem q5 (by decide))

/-- Claim C10 (confirmed): for every variant and every roughness in [0,1],
both 1-D indices used by oneMinusAvg, the bucket and its clamped successor,
lie within [0, COMP-1], hence strictly below the length of both 1-D
tables, so every table access in oneMinusAvg is in bounds. -/
theorem energyDeficit_indices_in_bounds (ty : MicrofacetDistribution) (r : ℚ)
    (hr0 : 0 ≤ r) (hr1 : r ≤ 1) :
    (rIndex r).1 ≤ COMP - 1 ∧ min ((rIndex r).1 + 1) (COMP - 1) ≤ COMP - 1 ∧
    (rIndex r).1 < mBeckmannOneMinusEavg.length ∧
    min ((rIndex r).1 + 1) (COMP - 1) < mBeckmannOneMinusEavg.length ∧
    (rIndex r).1 < mGGXOneMinusEavg.length ∧
    min ((rIndex r).1 + 1) (COMP - 1) < mGGXOneMinusEavg.length := by
  have hk : (rIndex r).1 ≤ 32 := rIndex_fst_le r hr1
  have hlb : mBeckmannOneMinusEavg.length = 33 := by
    rw [show mBeckmannOneMinusEavg = mBeckmannOneMinusEavgData.map q5 from rfl,
      List.length_map]
    decide
  have hlg : mGGXOneMinusEavg.length = 33 := by
    rw [show mGGXOneMinusEavg = mGGXOneMinusEavgData.map q5 from rfl, List.length_map]
    decide
  rw [hlb, hlg, show COMP - 1 = 32 from rfl]
  omega

/-- Claim C10, witness for the Beckmann variant at roughness 0. -/
theorem energyDeficit_indices_in_bounds_witness :
    (0 : ℚ) ≤ 0 ∧ (0 : ℚ) ≤ 1 ∧
    ((rIndex 0).1 ≤ COMP - 1 ∧ min ((rIndex 0).1 + 1) (COMP - 1) ≤ COMP - 1 ∧
     (rIndex 0).1 < mBeckmannOneMinusEavg.length ∧
     min ((rIndex 0).1 + 1) (COMP - 1) < mBeckmannOneMinusEavg.length ∧
     (rIndex 0).1 < mGGXOneMinusEavg.length ∧
     min ((rIndex 0).1 + 1) (COMP - 1) < mGGXOneMinusEavg.length) :=
  ⟨le_refl 0, zero_le_one,
   energyDeficit_indices_in_bounds .beckmann 0 (le_refl 0) zero_le_one⟩

end ReflectionAlbedo
